import Mathlib

/-
  Verification development for the BerryFrame repository: a CLI wrapping a
  single SSH/SFTP connection behind a singleton ConnectionManager, an
  observer-based status notifier, a command-pattern invoker with history,
  and a factory for API-function adapters.

  The external transport (paramiko) is modelled as an environment parameter:
  a function giving, for each request, either a result or a raised Python
  exception. All repository code is translated as straight-line state
  passing; side effects (observer update calls, SFTP channel operations,
  transport commands) are recorded in explicit traces.
-/

namespace BerryFrame

/-- Python exception values relevant to this repository, each carrying its
message. The first three are the exception types caught by the
ExecuteRemoteCommand adapter; the others appear in the factory, in list
removal, in attribute lookup and in SFTP I/O. -/
inductive PyExc where
  | sshException (msg : String)
  | authenticationException (msg : String)
  | connectionResetError (msg : String)
  | ioError (msg : String)
  | valueError (msg : String)
  | attributeError (msg : String)
  | runtimeError (msg : String)
  deriving DecidableEq, Repr

/-- The message of a Python exception, as str(e) renders it inside an
f-string. -/
def excMessage : PyExc → String
  | .sshException m => m
  | .authenticationException m => m
  | .connectionResetError m => m
  | .ioError m => m
  | .valueError m => m
  | .attributeError m => m
  | .runtimeError m => m

/-- Python str.strip() with no argument: removes leading and trailing
whitespace. Implemented structurally on the character list so that it is
kernel-computable. -/
def pyStrip (s : String) : String :=
  ⟨((s.data.dropWhile Char.isWhitespace).reverse.dropWhile Char.isWhitespace).reverse⟩

/-- State of a ConnectionManager instance (src/backend/connection_manager.py):
the list of attached observers in attachment order (self._observers) and the
session state of the owned transport handle (self.ssh_client: closed after
construction and after close(), open after a successful connect()). The
"Connected"/"Disconnected" status of the manager is derived from the handle. -/
structure CMState (α : Type) where
  observers : List α
  clientConnected : Bool
  deriving DecidableEq, Repr

/-- A freshly constructed ConnectionManager: no observers, transport session
closed. -/
def initCM (α : Type) : CMState α :=
  { observers := [], clientConnected := false }

/-- ConnectionManager.attach(observer): self._observers.append(observer). -/
def attach {α : Type} (s : CMState α) (o : α) : CMState α :=
  { s with observers := s.observers ++ [o] }

/-- ConnectionManager.detach(observer): self._observers.remove(observer).
Python list.remove removes the first occurrence and raises ValueError when
the element is absent. -/
def detach {α : Type} [DecidableEq α] (s : CMState α) (o : α) :
    Except PyExc (CMState α) :=
  if o ∈ s.observers then
    .ok { s with observers := s.observers.erase o }
  else
    .error (.valueError ("list.remove(x): x not in list"))

/-- ConnectionManager.notify(status): iterates over self._observers in order
calling observer.update(status). The result is the trace of update calls,
in the order they are made. -/
def notify {α : Type} (s : CMState α) (status : String) : List (α × String) :=
  s.observers.map (fun o => (o, status))

/-- ConnectionManager.connect(host, port, username, password, key_path):
forwards to self.ssh_client.connect(...) — its outcome is the transport
environment parameter — and, when that call returns, notifies "Connected".
There is no check of the current state: the code is a plain call followed by
self.notify("Connected"). On a transport exception the exception propagates
and no notification happens. Returns the new state and the update-call
trace. -/
def connect {α : Type} (transportResult : Except PyExc Unit) (s : CMState α) :
    Except PyExc (CMState α × List (α × String)) :=
  match transportResult with
  | .ok _ => .ok ({ s with clientConnected := true }, notify s ("Connected"))
  | .error e => .error e

/-- ConnectionManager.disconnect(): self.ssh_client.close() followed by
self.notify("Disconnected"). close() on a paramiko client does not raise.
Returns the new state and the update-call trace. -/
def disconnect {α : Type} (s : CMState α) : CMState α × List (α × String) :=
  ({ s with clientConnected := false }, notify s ("Disconnected"))

/-- The connection status of a manager state, as the Connected/Disconnected
enumeration of the spec, derived from the transport handle. -/
def statusOf {α : Type} (s : CMState α) : String :=
  if s.clientConnected then "Connected" else "Disconnected"

/-- A fresh manager with the given observers attached one by one, in order. -/
def attachAll {α : Type} (os : List α) : CMState α :=
  os.foldl attach (initCM α)

/-- Module-level object state behind ConnectionManager.get_instance: the
class attribute ConnectionManager._instance (an object reference or None,
here an object identity or none) together with a supply of fresh object
identities for newly constructed instances. -/
structure CMHeap where
  nextId : Nat
  instanceSlot : Option Nat
  deriving DecidableEq, Repr

/-- ConnectionManager.get_instance(): if _instance is None a new instance is
constructed and stored in _instance; the stored instance is returned.
Returns the identity of the returned object and the new module state. -/
def get_instance (h : CMHeap) : Nat × CMHeap :=
  match h.instanceSlot with
  | some i => (i, h)
  | none => (h.nextId, { nextId := h.nextId + 1, instanceSlot := some h.nextId })

/-- A sequence of n successive get_instance() calls: the list of returned
object identities, in call order, and the final module state. -/
def get_instance_list : Nat → CMHeap → List Nat × CMHeap
  | 0, h => ([], h)
  | Nat.succ n, h =>
    ((get_instance h).1 :: (get_instance_list n (get_instance h).2).1,
     (get_instance_list n (get_instance h).2).2)

/-- The exception types listed in the except clause of
ExecuteRemoteCommand.execute (src/api/api_functions.py line 75):
(SSHException, AuthenticationException, ConnectionResetError). -/
def caughtByExecuteRemoteCommand : PyExc → Bool
  | .sshException _ => true
  | .authenticationException _ => true
  | .connectionResetError _ => true
  | _ => false

/-- ExecuteRemoteCommand.execute(command) (src/api/api_functions.py lines
49-77). The environment parameter env models
ConnectionManager.execute_command: the raw transport output for a command,
or a raised exception. On success the output is returned stripped; a caught
exception is converted to the formatted error string; any other exception
propagates. The second component is the trace of commands issued to the
transport. -/
def execute_remote_command (env : String → Except PyExc String)
    (command : String) : Except PyExc String × List String :=
  match env command with
  | .ok output => (.ok (pyStrip output), [command])
  | .error e =>
    if caughtByExecuteRemoteCommand e then
      (.ok ("Error executing command \x27" ++ command ++ "\x27: " ++ excMessage e),
       [command])
    else
      (.error e, [command])

/-- The first fixed shell command of GetSystemStats.execute (cpu usage). -/
def cpuCommand : String :=
  "top -bn1 | grep \x27Cpu(s)\x27 | awk \x27\x7bprint $2+$4\x7d\x27"

/-- The second fixed shell command of GetSystemStats.execute (memory usage). -/
def memoryCommand : String :=
  "free -m | awk \x27NR==2\x7bprintf \"Memory Usage: %s/%sMB (%.2f%%)\", $3,$2,$3*100/$2 \x7d\x27"

/-- The third fixed shell command of GetSystemStats.execute (disk space). -/
def diskCommand : String :=
  "df -h | awk \x27$NF==\"/\"\x7bprintf \"Disk Usage: %d/%dGB (%s)\", $3,$2,$5\x7d\x27"

/-- The fourth fixed shell command of GetSystemStats.execute (process count). -/
def processCommand : String := "ps -e | wc -l"

/-- GetSystemStats.execute() (src/api/api_functions.py lines 88-107): four
ExecuteRemoteCommand invocations with the fixed commands, in order, returning
the 4-tuple of their results unchanged. An exception propagating out of an
invocation aborts the rest. The second component is the trace of commands
issued to the transport. -/
def get_system_stats (env : String → Except PyExc String) :
    Except PyExc (String × String × String × String) × List String :=
  let r1 := execute_remote_command env cpuCommand
  match r1.1 with
  | .error e => (.error e, r1.2)
  | .ok cpu_usage =>
    let r2 := execute_remote_command env memoryCommand
    match r2.1 with
    | .error e => (.error e, r1.2 ++ r2.2)
    | .ok memory_usage =>
      let r3 := execute_remote_command env diskCommand
      match r3.1 with
      | .error e => (.error e, r1.2 ++ r2.2 ++ r3.2)
      | .ok disk_space =>
        let r4 := execute_remote_command env processCommand
        match r4.1 with
        | .error e => (.error e, r1.2 ++ r2.2 ++ r3.2 ++ r4.2)
        | .ok running_processes =>
          (.ok (cpu_usage, memory_usage, disk_space, running_processes),
           r1.2 ++ r2.2 ++ r3.2 ++ r4.2)

/-- Operations performed on an SFTP channel obtained from
ssh_client.open_sftp(). -/
inductive SftpEvent where
  | openChannel
  | putFile (localPath remotePath : String)
  | getFile (remotePath localPath : String)
  | closeChannel
  deriving DecidableEq, Repr

/-- UploadFile.execute(local_path, remote_path) (src/api/api_functions.py
lines 118-136): open_sftp(); put(local_path, remote_path); close(). The
environment parameter gives the outcome of put. The three statements are
sequential with no try/finally: when put raises, the exception propagates
and close() is never reached. The second component is the trace of channel
operations performed. -/
def upload_file (putResult : String → String → Except PyExc Unit)
    (local_path remote_path : String) : Except PyExc Unit × List SftpEvent :=
  match putResult local_path remote_path with
  | .ok _ =>
    (.ok (), [.openChannel, .putFile local_path remote_path, .closeChannel])
  | .error e =>
    (.error e, [.openChannel, .putFile local_path remote_path])

/-- DownloadFile.execute(remote_path, local_path) (src/api/api_functions.py
lines 147-165): open_sftp(); get(remote_path, local_path); close(), with the
same straight-line structure as upload_file. -/
def download_file (getResult : String → String → Except PyExc Unit)
    (remote_path local_path : String) : Except PyExc Unit × List SftpEvent :=
  match getResult remote_path local_path with
  | .ok _ =>
    (.ok (), [.openChannel, .getFile remote_path local_path, .closeChannel])
  | .error e =>
    (.error e, [.openChannel, .getFile remote_path local_path])

/-- The four adapter classes instantiable through APIFunctionFactory. -/
inductive APIFunctionKind where
  | executeRemoteCommand
  | getSystemStats
  | uploadFile
  | downloadFile
  deriving DecidableEq, Repr

/-- APIFunctionFactory.create_api_function(function_type)
(src/api/api_function_factory.py lines 26-54): the if/elif chain over the
four recognized names, raising ValueError otherwise. -/
def create_api_function (function_type : String) : Except PyExc APIFunctionKind :=
  if function_type = "ExecuteRemoteCommand" then .ok .executeRemoteCommand
  else if function_type = "GetSystemStats" then .ok .getSystemStats
  else if function_type = "UploadFile" then .ok .uploadFile
  else if function_type = "DownloadFile" then .ok .downloadFile
  else .error (.valueError ("Unknown API function type: " ++ function_type))

/-- State of an SSHCommandInvoker (src/controllers/command_invoker.py): the
history list of (command, result) pairs, initially empty. Command objects
and results are kept abstract as type parameters. -/
structure SSHCommandInvoker (κ ρ : Type) where
  history : List (κ × ρ)
  deriving DecidableEq, Repr

/-- SSHCommandInvoker.execute_command(command): result = command.execute();
self.history.append((command, result)); return result. The execute method of the
command object is the parameter exec. -/
def execute_command {κ ρ : Type} (inv : SSHCommandInvoker κ ρ) (command : κ)
    (exec : κ → ρ) : ρ × SSHCommandInvoker κ ρ :=
  let result := exec command
  (result, { history := inv.history ++ [(command, result)] })

/-- SSHCommandInvoker.show_history(): one printed line per history entry, in
history order. showCmd and showRes stand for the Python str() of the command object
and on the result. -/
def show_history {κ ρ : Type} (inv : SSHCommandInvoker κ ρ)
    (showCmd : κ → String) (showRes : ρ → String) : List String :=
  inv.history.map
    (fun e => "Executed: " ++ showCmd e.1 ++ " with result: " ++ showRes e.2)

/-- A sequence of execute_command calls on the invoker, one per element of
cs, in order. -/
def run_commands {κ ρ : Type} (inv : SSHCommandInvoker κ ρ) (cs : List κ)
    (exec : κ → ρ) : SSHCommandInvoker κ ρ :=
  match cs with
  | [] => inv
  | c :: rest => run_commands (execute_command inv c exec).2 rest exec

/-- The attribute names defined on an SSHController instance, transcribed
from the class body and __init__ of src/controllers/ssh_controller.py: the
instance attributes set in __init__ and the three methods. -/
def sshControllerAttrs : List String :=
  ["connection_manager", "view", "host", "port", "username", "password",
   "key_path", "connect", "execute_command", "disconnect"]

/-- Python attribute lookup on an SSHController instance: succeeds exactly
for the attributes the class defines, and raises AttributeError otherwise —
as evaluation of controller.is_connected in main.check_ssh_connection
(src/main.py line 80) does. -/
def getattrSSHController (name : String) : Except PyExc Unit :=
  if name ∈ sshControllerAttrs then .ok ()
  else
    .error (.attributeError
      ("\x27SSHController\x27 object has no attribute \x27" ++ name ++ "\x27"))

/-- Folding attach over a list appends the list to the observers and leaves
the transport handle untouched. -/
theorem attach_foldl {α : Type} (os : List α) (s : CMState α) :
    os.foldl attach s =
      { observers := s.observers ++ os, clientConnected := s.clientConnected } := by
  induction os generalizing s with
  | nil => simp
  | cons o rest ih => simp [attach, ih]

/-- attachAll builds exactly the manager whose observers are the given list. -/
theorem attachAll_eq {α : Type} (os : List α) :
    attachAll os = { observers := os, clientConnected := false } := by
  simp [attachAll, attach_foldl, initCM]

/-- Counting a pair with a fixed second component in a constant-paired map
counts the first component in the underlying list. -/
theorem count_map_pair {α : Type} [DecidableEq α] (l : List α) (o : α)
    (st : String) :
    (l.map (fun x => (x, st))).count (o, st) = l.count o := by
  induction l with
  | nil => simp
  | cons a t ih => simp [List.count_cons, ih, beq_iff_eq]

/-- After any get_instance call the instance slot holds the returned
identity. -/
theorem get_instance_fix (h : CMHeap) :
    (get_instance h).2.instanceSlot = some (get_instance h).1 := by
  cases hs : h.instanceSlot <;> simp [get_instance, hs]

/-- On a module state whose slot is filled, every sequence of get_instance
calls returns the stored identity and leaves the state unchanged. -/
theorem get_instance_list_stable (n : Nat) (i : Nat) (h : CMHeap)
    (hs : h.instanceSlot = some i) :
    get_instance_list n h = (List.replicate n i, h) := by
  induction n with
  | zero => simp [get_instance_list]
  | succ k ih => simp [get_instance_list, get_instance, hs, ih, List.replicate_succ]

/-- Claim C9: ConnectionManager.get_instance is a process-wide singleton
accessor: in every sequence of sequential calls, every call returns the same
instance as the first one, and no call after the first changes the module
state. -/
theorem get_instance_singleton (h : CMHeap) (n : Nat) :
    (get_instance_list (n + 1) h).1 = List.replicate (n + 1) (get_instance h).1 ∧
    (get_instance_list (n + 1) h).2 = (get_instance h).2 := by
  have hst := get_instance_list_stable n (get_instance h).1 (get_instance h).2
    (get_instance_fix h)
  exact ⟨by simp [get_instance_list, hst, List.replicate_succ],
         by simp [get_instance_list, hst]⟩

/-- Claim C8: the factory maps each of the four recognized names to the
adapter of the same name, and raises the unknown-function-type ValueError
for every other name. -/
theorem factory_mapping :
    create_api_function ("ExecuteRemoteCommand") = .ok .executeRemoteCommand ∧
    create_api_function ("GetSystemStats") = .ok .getSystemStats ∧
    create_api_function ("UploadFile") = .ok .uploadFile ∧
    create_api_function ("DownloadFile") = .ok .downloadFile ∧
    ∀ s : String,
      s ∉ (["ExecuteRemoteCommand", "GetSystemStats", "UploadFile",
            "DownloadFile"] : List String) →
      create_api_function s =
        .error (.valueError ("Unknown API function type: " ++ s)) := by
  refine ⟨rfl, rfl, rfl, rfl, ?_⟩
  intro s hs
  simp [List.mem_cons, not_or] at hs
  obtain ⟨h1, h2, h3, h4⟩ := hs
  simp [create_api_function, h1, h2, h3, h4]

/-- Witness for claim C8 at the concrete unrecognized name UnknownName. -/
theorem factory_mapping_witness :
    create_api_function ("UnknownName") =
      .error (.valueError ("Unknown API function type: " ++ "UnknownName")) :=
  factory_mapping.2.2.2.2 ("UnknownName") (by decide)

/-- Claim C2: the code bug behind the claim. The CLI
(main.check_ssh_connection, src/main.py line 80) evaluates
controller.is_connected, but the SSHController class defines no attribute of
that name, so the lookup raises AttributeError instead of returning the
connection status. -/
theorem ssh_controller_missing_is_connected :
    ("is_connected" ∉ sshControllerAttrs) ∧
    getattrSSHController ("is_connected") =
      .error (.attributeError
        ("\x27SSHController\x27 object has no attribute \x27" ++
          "is_connected" ++ "\x27")) :=
  ⟨by decide, rfl⟩

/-- Running the invoker over a command list appends one (command, result)
pair per command, in order. -/
theorem run_commands_history {κ ρ : Type} (inv : SSHCommandInvoker κ ρ)
    (cs : List κ) (exec : κ → ρ) :
    (run_commands inv cs exec).history =
      inv.history ++ cs.map (fun d => (d, exec d)) := by
  induction cs generalizing inv with
  | nil => simp [run_commands]
  | cons c rest ih => simp [run_commands, execute_command, ih]

/-- Claim C7: each execute_command call on the invoker runs the command
once, returns its result, appends exactly one (command, result) pair after
the previously recorded entries, which are unchanged; over any sequence of
calls the history lists the commands in execution order, and show_history
renders every recorded entry with its result in that order. -/
theorem invoker_history_order {κ ρ : Type} (inv : SSHCommandInvoker κ ρ)
    (c : κ) (exec : κ → ρ) (showCmd : κ → String) (showRes : ρ → String) :
    ((execute_command inv c exec).1 = exec c) ∧
    ((execute_command inv c exec).2.history = inv.history ++ [(c, exec c)]) ∧
    (∀ cs : List κ, (run_commands inv cs exec).history =
      inv.history ++ cs.map (fun d => (d, exec d))) ∧
    (∀ cs : List κ, show_history (run_commands inv cs exec) showCmd showRes =
      show_history inv showCmd showRes ++
        cs.map (fun d =>
          "Executed: " ++ showCmd d ++ " with result: " ++ showRes (exec d))) := by
  refine ⟨rfl, rfl, fun cs => run_commands_history inv cs exec, fun cs => ?_⟩
  simp [show_history, run_commands_history inv cs exec, List.map_map,
    Function.comp]

/-- Claim C5: on success ExecuteRemoteCommand.execute returns the raw output
stripped of leading and trailing whitespace; a raised SSHException,
AuthenticationException or ConnectionResetError is not propagated but turned
into the formatted error string containing the command; any other exception
propagates; and the file-transfer adapters propagate their failures
unchanged, so this adapter is the one that swallows errors into data. -/
theorem execute_remote_command_soft_failure
    (env : String → Except PyExc String) (command : String) :
    (∀ output, env command = .ok output →
      execute_remote_command env command = (.ok (pyStrip output), [command])) ∧
    (∀ e, env command = .error e → caughtByExecuteRemoteCommand e = true →
      execute_remote_command env command =
        (.ok ("Error executing command \x27" ++ command ++ "\x27: " ++
          excMessage e), [command])) ∧
    (∀ e, env command = .error e → caughtByExecuteRemoteCommand e = false →
      execute_remote_command env command = (.error e, [command])) ∧
    (∀ (putResult : String → String → Except PyExc Unit) (l r : String)
      (e : PyExc), putResult l r = .error e →
        (upload_file putResult l r).1 = .error e) ∧
    (∀ (getResult : String → String → Except PyExc Unit) (r l : String)
      (e : PyExc), getResult r l = .error e →
        (download_file getResult r l).1 = .error e) := by
  refine ⟨?_, ?_, ?_, ?_, ?_⟩
  · intro output h; simp [execute_remote_command, h]
  · intro e h hc; simp [execute_remote_command, h, hc]
  · intro e h hc; simp [execute_remote_command, h, hc]
  · intro putResult l r e h; simp [upload_file, h]
  · intro getResult r l e h; simp [download_file, h]

/-- A transport that raises SSHException boom on every command. -/
def sshFailEnv : String → Except PyExc String :=
  fun _ => .error (.sshException ("boom"))

/-- Witness for claim C5 on a transport whose command execution raises
SSHException. -/
theorem execute_remote_command_soft_failure_witness :
    execute_remote_command sshFailEnv ("ls") =
      (.ok ("Error executing command \x27" ++ "ls" ++ "\x27: " ++
        excMessage (.sshException ("boom"))), ["ls"]) :=
  (execute_remote_command_soft_failure sshFailEnv ("ls")).2.1
    (.sshException ("boom")) rfl rfl

/-- Claim C6: GetSystemStats.execute issues exactly the four fixed shell
commands through ExecuteRemoteCommand, in order cpu, memory, disk, process
count, and returns the 4-tuple of exactly the four values those invocations
produced, unmodified. -/
theorem get_system_stats_four_commands
    (env : String → Except PyExc String) (c m d p : String)
    (h1 : execute_remote_command env cpuCommand = (.ok c, [cpuCommand]))
    (h2 : execute_remote_command env memoryCommand = (.ok m, [memoryCommand]))
    (h3 : execute_remote_command env diskCommand = (.ok d, [diskCommand]))
    (h4 : execute_remote_command env processCommand = (.ok p, [processCommand])) :
    get_system_stats env =
      (.ok (c, m, d, p),
       [cpuCommand, memoryCommand, diskCommand, processCommand]) := by
  simp [get_system_stats, h1, h2, h3, h4]

/-- A transport that answers ok to every command. -/
def statsOkEnv : String → Except PyExc String := fun _ => .ok ("ok")

/-- Witness for claim C6 on a transport answering ok everywhere. -/
theorem get_system_stats_four_commands_witness :
    get_system_stats statsOkEnv =
      (.ok ("ok", "ok", "ok", "ok"),
       [cpuCommand, memoryCommand, diskCommand, processCommand]) :=
  get_system_stats_four_commands statsOkEnv ("ok") ("ok") ("ok") ("ok")
    rfl rfl rfl rfl

/-- Claim C4: starting from a fresh manager with any observer list attached,
a successful connect followed by disconnect moves the status Disconnected,
then Connected, then Disconnected; each transition notifies, synchronously
as part of the call result, every attached observer in attachment order with
the matching status string, each occurrence exactly once. -/
theorem connect_disconnect_status_and_notifications {α : Type} [DecidableEq α]
    (obs : List α) :
    statusOf (attachAll obs) = "Disconnected" ∧
    connect (Except.ok ()) (attachAll obs) =
      .ok ({ observers := obs, clientConnected := true },
        obs.map (fun o => (o, "Connected"))) ∧
    statusOf ({ observers := obs, clientConnected := true } : CMState α) =
      "Connected" ∧
    disconnect ({ observers := obs, clientConnected := true } : CMState α) =
      ({ observers := obs, clientConnected := false },
       obs.map (fun o => (o, "Disconnected"))) ∧
    statusOf ({ observers := obs, clientConnected := false } : CMState α) =
      "Disconnected" ∧
    (∀ o : α, (obs.map (fun x => (x, ("Connected" : String)))).count
      (o, "Connected") = obs.count o) ∧
    (∀ o : α, (obs.map (fun x => (x, ("Disconnected" : String)))).count
      (o, "Disconnected") = obs.count o) := by
  refine ⟨?_, ?_, rfl, ?_, rfl, fun o => count_map_pair obs o _,
    fun o => count_map_pair obs o _⟩
  · simp [attachAll_eq, statusOf]
  · simp [attachAll_eq, connect, notify]
  · simp [disconnect, notify]

/-- The manager state after a first successful connect with two observers
attached. -/
def cmConnectedPair : CMState Nat :=
  { observers := [0, 1], clientConnected := true }

/-- Counterexample to claim C3: a successful first connect leaves the
manager Connected, and a second connect while Connected returns successfully
(notifying Connected again) instead of failing with a ConnectionError:
there is no already-connected check in ConnectionManager.connect. -/
theorem connect_second_call_silently_succeeds :
    connect (Except.ok ()) (attachAll ([0, 1] : List Nat)) =
      .ok (cmConnectedPair, [(0, "Connected"), (1, "Connected")]) ∧
    statusOf cmConnectedPair = "Connected" ∧
    connect (Except.ok ()) cmConnectedPair =
      .ok (cmConnectedPair, [(0, "Connected"), (1, "Connected")]) :=
  ⟨rfl, rfl, rfl⟩

/-- Claim C3 as amended: ConnectionManager.connect performs no
already-connected check. Called while the status is Connected it forwards to
the transport unconditionally: when the transport call succeeds the second
connect silently succeeds, leaves the state Connected and notifies every
observer Connected again; only an exception raised by the transport itself
is surfaced, unchanged. -/
theorem connect_no_already_connected_check {α : Type} (s : CMState α)
    (halready : s.clientConnected = true) :
    connect (Except.ok ()) s =
      .ok ({ s with clientConnected := true },
        s.observers.map (fun o => (o, "Connected"))) ∧
    ({ s with clientConnected := true } : CMState α) = s ∧
    (∀ e : PyExc, connect (Except.error e) s = .error e) := by
  refine ⟨rfl, ?_, fun _ => rfl⟩
  cases s with
  | mk obs c =>
    cases halready
    rfl

/-- Witness for the amended claim C3 at the concrete Connected state with
two observers. -/
theorem connect_no_already_connected_check_witness :
    connect (Except.ok ()) cmConnectedPair =
      .ok ({ cmConnectedPair with clientConnected := true },
        cmConnectedPair.observers.map (fun o => (o, "Connected"))) :=
  (connect_no_already_connected_check cmConnectedPair rfl).1

/-- An SFTP put that raises IOError disk full. -/
def sftpPutFails : String → String → Except PyExc Unit :=
  fun _ _ => .error (.ioError ("disk full"))

/-- An SFTP put that succeeds. -/
def sftpPutOk : String → String → Except PyExc Unit := fun _ _ => .ok ()

/-- Counterexample to claim C1: when put raises, UploadFile.execute
propagates the exception and the channel close is never performed — the
close count on the error path is 0, not 1, so the release is not guaranteed
on error paths. -/
theorem upload_file_close_skipped_on_put_error :
    (upload_file sftpPutFails ("a.txt") ("b.txt")).1 =
      .error (.ioError ("disk full")) ∧
    (upload_file sftpPutFails ("a.txt") ("b.txt")).2.count
      SftpEvent.closeChannel = 0 ∧
    ¬ (upload_file sftpPutFails ("a.txt") ("b.txt")).2.count
      SftpEvent.closeChannel = 1 :=
  ⟨rfl, rfl, by decide⟩

/-- Claim C1 as amended: UploadFile.execute opens exactly one SFTP channel
and calls put exactly once; on the success path it closes the channel
exactly once before returning; when put raises, the exception propagates and
the channel is not closed (no release on the error path). -/
theorem upload_file_channel_discipline
    (putResult : String → String → Except PyExc Unit)
    (local_path remote_path : String) :
    ((upload_file putResult local_path remote_path).2.count
      SftpEvent.openChannel = 1) ∧
    ((upload_file putResult local_path remote_path).2.count
      (SftpEvent.putFile local_path remote_path) = 1) ∧
    (putResult local_path remote_path = .ok () →
      upload_file putResult local_path remote_path =
        (.ok (), [SftpEvent.openChannel,
          SftpEvent.putFile local_path remote_path, SftpEvent.closeChannel])) ∧
    (∀ e, putResult local_path remote_path = .error e →
      upload_file putResult local_path remote_path =
        (.error e, [SftpEvent.openChannel,
          SftpEvent.putFile local_path remote_path])) := by
  cases hp : putResult local_path remote_path with
  | ok u =>
    refine ⟨?_, ?_, fun _ => ?_, fun e he => ?_⟩
    · simp [upload_file, hp, List.count_cons, beq_iff_eq]
    · simp [upload_file, hp, List.count_cons, beq_iff_eq]
    · cases u; simp [upload_file, hp]
    · exact Except.noConfusion he
  | error e0 =>
    refine ⟨?_, ?_, fun h => ?_, fun e he => ?_⟩
    · simp [upload_file, hp, List.count_cons, beq_iff_eq]
    · simp [upload_file, hp, List.count_cons, beq_iff_eq]
    · exact Except.noConfusion h
    · injection he with hee
      subst hee
      simp [upload_file, hp]

/-- Witness for the amended claim C1 on the success path. -/
theorem upload_file_channel_discipline_witness :
    upload_file sftpPutOk ("a.txt") ("b.txt") =
      (.ok (), [SftpEvent.openChannel, SftpEvent.putFile ("a.txt") ("b.txt"),
        SftpEvent.closeChannel]) :=
  (upload_file_channel_discipline sftpPutOk ("a.txt") ("b.txt")).2.2.1 rfl

/-- Claim C10: attach performs no deduplication — an observer attached n
times is notified once per occurrence, so n times; detach removes exactly
the first occurrence; and detach of an observer that is not attached raises
ValueError. -/
theorem attach_detach_notify_multiplicity {α : Type} [DecidableEq α]
    (s : CMState α) (o : α) (st : String) :
    ((attach s o).observers = s.observers ++ [o]) ∧
    ((attach s o).observers.count o = s.observers.count o + 1) ∧
    ((notify s st).count (o, st) = s.observers.count o) ∧
    (∀ pre post : List α, o ∉ pre → s.observers = pre ++ o :: post →
      detach s o = .ok { s with observers := pre ++ post }) ∧
    (o ∉ s.observers →
      detach s o = .error (.valueError ("list.remove(x): x not in list"))) := by
  refine ⟨rfl, ?_, count_map_pair s.observers o st, ?_, ?_⟩
  · simp [attach, List.count_append, List.count_singleton, beq_iff_eq]
  · intro pre post hpre hobs
    have hmem : o ∈ s.observers := by
      rw [hobs]
      exact List.mem_append_right pre (List.mem_cons_self o post)
    have herase : s.observers.erase o = pre ++ post := by
      rw [hobs, List.erase_append_right (o :: post) hpre, List.erase_cons_head]
    simp [detach, hmem, herase]
  · intro hnot
    simp [detach, hnot]

/-- A manager state with observer 7 attached twice around observer 3. -/
def cmTriple : CMState Nat := { observers := [7, 3, 7], clientConnected := false }

/-- Witness for claim C10: on observers [7, 3, 7], detach 7 removes only the
first 7, detach 5 raises ValueError, and notify reaches 7 twice. -/
theorem attach_detach_notify_multiplicity_witness :
    detach cmTriple 7 = .ok { observers := [3, 7], clientConnected := false } ∧
    detach cmTriple 5 = .error (.valueError ("list.remove(x): x not in list")) ∧
    (notify cmTriple ("Connected")).count ((7 : Nat), "Connected") = 2 :=
  ⟨(attach_detach_notify_multiplicity cmTriple 7 ("Connected")).2.2.2.1 [] [3, 7]
      (by decide) rfl,
   (attach_detach_notify_multiplicity cmTriple 5 ("Connected")).2.2.2.2
      (by decide),
   (attach_detach_notify_multiplicity cmTriple 7 ("Connected")).2.2.1⟩

end BerryFrame
